import Mathlib

/-
Shallow embedding of the ingestion core of the ncu_overview_analysis
repository.

Namespace CloudApi models src/request_cloud_api.py (class DatabaseManager:
check_ids_exist, insert_ncu_data_batch, insert_ncu_data).

Namespace Collector models src/data_collector.py (class DatabaseManager:
create_connection, ensure_connection, insert_data; class DataCollector:
collect_data; class NCUDataCollectionService: run_collection_loop).

Database and network effects are modelled by explicit environments: the
outcome of each fallible external call (an SQL statement, an HTTP request,
a login) is a parameter of the embedded function, and the rows or tracking
records a function would write are returned as explicit lists.
-/

namespace CloudApi

/-- DbError classifies the exceptions distinguished by
insert_ncu_data_batch in src/request_cloud_api.py: errno 1153
(packet/payload too large), errno 2013 (lost connection), and every other
exception, which the code treats with the same retry-then-give-up logic. -/
inductive DbError where
  | packetTooLarge
  | lostConnection
  | otherError
  deriving DecidableEq, Repr

/-- BatchEnv gives the outcome of the executemany call for a given batch at
a given attempt number: none means the insert succeeds, some e means it
raises the exception classified as e. -/
def BatchEnv (α : Type) : Type := List α → Nat → Option DbError

/-- max_retries mirrors the local max_retries = 3 of
insert_ncu_data_batch. -/
def max_retries : Nat := 3

/-- batch_size mirrors self.batch_size = 100 of DatabaseManager in
src/request_cloud_api.py. -/
def batch_size : Nat := 100

/-- insert_batch_go embeds the attempt loop of
DatabaseManager.insert_ncu_data_batch (src/request_cloud_api.py lines
162-237), entered at a given attempt number. On success it returns true.
On errno 1153 before the last attempt it bisects a multi-record batch and
combines the two recursive results with logical and, while a single-record
batch is reported as failed; at the last attempt it gives up. Errno 2013
and any other error are retried at the next attempt number until the
attempts are exhausted. -/
def insert_batch_go {α : Type} (env : BatchEnv α) (batch : List α) (attempt : Nat) : Bool :=
  match env batch attempt with
  | none => true
  | some DbError.packetTooLarge =>
      if attempt < max_retries - 1 then
        if 1 < batch.length then
          insert_batch_go env (batch.take (batch.length / 2)) 0 &&
          insert_batch_go env (batch.drop (batch.length / 2)) 0
        else false
      else false
  | some DbError.lostConnection =>
      if attempt < max_retries - 1 then insert_batch_go env batch (attempt + 1) else false
  | some DbError.otherError =>
      if attempt < max_retries - 1 then insert_batch_go env batch (attempt + 1) else false
termination_by (batch.length, max_retries - attempt)
decreasing_by
  · exact Prod.Lex.left _ _ (by
      have : batch.length / 2 < batch.length := Nat.div_lt_self (by omega) (by omega)
      simpa [List.length_take] using by omega)
  · exact Prod.Lex.left _ _ (by simp [List.length_drop]; omega)
  · exact Prod.Lex.right _ (by simp [max_retries] at *; omega)
  · exact Prod.Lex.right _ (by simp [max_retries] at *; omega)

/-- insert_ncu_data_batch is insert_batch_go entered at attempt 0, the way
insert_ncu_data calls it. -/
def insert_ncu_data_batch {α : Type} (env : BatchEnv α) (batch : List α) : Bool :=
  insert_batch_go env batch 0

/-- insert_batch_rows returns the rows actually written by an
insert_batch_go call: the whole batch when the executemany succeeds, the
union of the rows written by the two halves after a bisection, and nothing
when the call gives up. -/
def insert_batch_rows {α : Type} (env : BatchEnv α) (batch : List α) (attempt : Nat) : List α :=
  match env batch attempt with
  | none => batch
  | some DbError.packetTooLarge =>
      if attempt < max_retries - 1 then
        if 1 < batch.length then
          insert_batch_rows env (batch.take (batch.length / 2)) 0 ++
          insert_batch_rows env (batch.drop (batch.length / 2)) 0
        else []
      else []
  | some DbError.lostConnection =>
      if attempt < max_retries - 1 then insert_batch_rows env batch (attempt + 1) else []
  | some DbError.otherError =>
      if attempt < max_retries - 1 then insert_batch_rows env batch (attempt + 1) else []
termination_by (batch.length, max_retries - attempt)
decreasing_by
  · exact Prod.Lex.left _ _ (by
      have : batch.length / 2 < batch.length := Nat.div_lt_self (by omega) (by omega)
      simpa [List.length_take] using by omega)
  · exact Prod.Lex.left _ _ (by simp [List.length_drop]; omega)
  · exact Prod.Lex.right _ (by simp [max_retries] at *; omega)
  · exact Prod.Lex.right _ (by simp [max_retries] at *; omega)

/-- insert_batch_calls counts the executemany calls performed by an
insert_batch_go call, including every retry and every call made on behalf
of a bisected half. -/
def insert_batch_calls {α : Type} (env : BatchEnv α) (batch : List α) (attempt : Nat) : Nat :=
  match env batch attempt with
  | none => 1
  | some DbError.packetTooLarge =>
      if attempt < max_retries - 1 then
        if 1 < batch.length then
          1 + insert_batch_calls env (batch.take (batch.length / 2)) 0 +
          insert_batch_calls env (batch.drop (batch.length / 2)) 0
        else 1
      else 1
  | some DbError.lostConnection =>
      if attempt < max_retries - 1 then 1 + insert_batch_calls env batch (attempt + 1) else 1
  | some DbError.otherError =>
      if attempt < max_retries - 1 then 1 + insert_batch_calls env batch (attempt + 1) else 1
termination_by (batch.length, max_retries - attempt)
decreasing_by
  · exact Prod.Lex.left _ _ (by
      have : batch.length / 2 < batch.length := Nat.div_lt_self (by omega) (by omega)
      simpa [List.length_take] using by omega)
  · exact Prod.Lex.left _ _ (by simp [List.length_drop]; omega)
  · exact Prod.Lex.right _ (by simp [max_retries] at *; omega)
  · exact Prod.Lex.right _ (by simp [max_retries] at *; omega)

/-- NcuRecord stands for one processed tuple handed to insert_ncu_data:
rid is record[0], the upstream natural key used for deduplication, and
payload abbreviates the remaining columns, which never influence control
flow. -/
structure NcuRecord where
  rid : String
  payload : String
  deriving DecidableEq, Repr

/-- check_ids_exist embeds DatabaseManager.check_ids_exist
(src/request_cloud_api.py lines 134-160): an empty input returns the empty
set without a query; otherwise the function selects the input ids present
in the tcu_overview table (db is the set of stored ids), and any exception
during the lookup is swallowed and turned into the empty set. lookupOk is
false exactly when the lookup raises. -/
def check_ids_exist (db : List String) (lookupOk : Bool) (ids : List String) : List String :=
  if ids.isEmpty then []
  else if lookupOk then ids.filter (fun i => decide (i ∈ db)) else []

/-- existing_ids is the duplicate set insert_ncu_data computes from its
input list: check_ids_exist applied to the ids of all records. -/
def existing_ids (db : List String) (lookupOk : Bool) (data : List NcuRecord) : List String :=
  check_ids_exist db lookupOk (data.map (fun r => r.rid))

/-- new_records is the pruned input of insert_ncu_data: the records whose
id the duplicate lookup did not return. -/
def new_records (db : List String) (lookupOk : Bool) (data : List NcuRecord) : List NcuRecord :=
  data.filter (fun r => decide (r.rid ∉ existing_ids db lookupOk data))

/-- chunksAux splits a list into consecutive batches of batch_size
records, with fuel bounding the recursion depth by the list length. -/
def chunksAux {α : Type} : Nat → List α → List (List α)
  | 0, _ => []
  | _, [] => []
  | fuel + 1, x :: xs =>
      (x :: xs).take batch_size :: chunksAux fuel ((x :: xs).drop batch_size)

/-- chunks is the batching loop of insert_ncu_data: range(0, len, 100)
slices of the pruned input. -/
def chunks {α : Type} (l : List α) : List (List α) :=
  chunksAux l.length l

/-- insert_ncu_data embeds DatabaseManager.insert_ncu_data
(src/request_cloud_api.py lines 239-282): empty input succeeds at once;
otherwise duplicates are pruned using check_ids_exist, the remaining
records are cut into batches of batch_size, every batch is handed to
insert_ncu_data_batch, the rows those calls wrote are accumulated, and the
call reports success when at least one batch succeeded (or when nothing
was new). Returns (success, rows written). -/
def insert_ncu_data (db : List String) (lookupOk : Bool) (env : BatchEnv NcuRecord)
    (data_list : List NcuRecord) : Bool × List NcuRecord :=
  if data_list.isEmpty then (true, [])
  else if (new_records db lookupOk data_list).isEmpty then (true, [])
  else
    (((chunks (new_records db lookupOk data_list)).filter
        (fun b => insert_batch_go env b 0)).length > 0,
     (chunks (new_records db lookupOk data_list)).flatMap
        (fun b => insert_batch_rows env b 0))

end CloudApi

namespace Collector

/-- Item stands for one element of the fetched data list handed to
DatabaseManager.insert_data in src/data_collector.py. Only the nested
project value participates in control flow (the AAA filter); the many
other columns are irrelevant to the embedded logic. -/
structure Item where
  project : String
  deriving DecidableEq, Repr

/-- TrackingRecord models one row of the data_collection_tracking table,
restricted to the columns the claims are about. On the success path of
insert_data the error_message column is not part of the insert and is
modelled as none. -/
structure TrackingRecord where
  records_collected : Nat
  records_inserted : Nat
  excluded_records : Nat
  success : Bool
  error_message : Option String
  deriving DecidableEq, Repr

/-- InsertEnv fixes the outcomes of the fallible operations inside one
DatabaseManager.insert_data call: outerError = some (k, msg) means the
body of the outer try raises with text msg after k filtered items were
executed (ensure_connection, cursor creation, the tracking insert and its
fallback, or the commit); itemOk tells whether the per-item
cursor.execute succeeds for a given item (a failed item is logged and
skipped); errTrackOk tells whether the error-path tracking insert and its
commit succeed. -/
structure InsertEnv where
  outerError : Option (Nat × String)
  itemOk : Item → Bool
  errTrackOk : Bool

/-- non_aaa is the filter of src/data_collector.py lines 275-276: the
items whose project value differs from AAA. -/
def non_aaa (l : List Item) : List Item :=
  l.filter (fun it => decide (it.project ≠ "AAA"))

/-- insert_data embeds DatabaseManager.insert_data (src/data_collector.py
lines 263-431). Returns (result, tracking records written, ncu_data rows
persisted). The success path filters out AAA items, inserts the filtered
items one by one skipping individual failures, and writes one tracking
record with success true and no error message. The error path writes one
tracking record with counts (len, 0, 0), success false and the raised
error text, and commits whatever rows were executed before the failure;
if that tracking write itself fails, nothing is written or committed. -/
def insert_data (env : InsertEnv) (data_list : List Item) :
    Bool × List TrackingRecord × List Item :=
  match env.outerError with
  | none =>
      (true,
       [{ records_collected := data_list.length,
          records_inserted := ((non_aaa data_list).filter env.itemOk).length,
          excluded_records := data_list.length - (non_aaa data_list).length,
          success := true,
          error_message := none }],
       (non_aaa data_list).filter env.itemOk)
  | some ke =>
      if env.errTrackOk then
        (false,
         [{ records_collected := data_list.length,
            records_inserted := 0,
            excluded_records := 0,
            success := false,
            error_message := some ke.2 }],
         ((non_aaa data_list).take ke.1).filter env.itemOk)
      else (false, [], [])

/-- FetchOutcome classifies what the data request of
DataCollector.collect_data observes: a 200 with a well-formed body, a 200
whose body fails to parse as JSON, a 200 without a data list, a 401, any
other HTTP status, or a raised network exception (timeout, connection
error, or anything else). -/
inductive FetchOutcome where
  | ok (items : List Item)
  | badJson
  | badFormat
  | unauthorized
  | httpError (code : Nat)
  | netError
  deriving Repr

/-- PollRound fixes the environment of one pass through the body of
collect_data: the outcome of login() if the pass needs one, the outcome
of the data request, and the environment of the insert_data call reached
on a well-formed 200. -/
structure PollRound where
  loginOk : Bool
  fetch : FetchOutcome
  ins : InsertEnv

/-- collect_data embeds DataCollector.collect_data (src/data_collector.py
lines 556-638). needLogin is true when no live session exists or the
session is stale; a failed login skips the cycle. A well-formed 200 is
handed to insert_data; bad JSON, a missing data list, a non-200 non-401
status, and network exceptions all fail the cycle without any write. A
401 clears the session flag and re-enters collect_data (the recursion of
line 616); fuel bounds that recursion, and none models exhausting it,
which the source never does (its recursion is unbounded). The result is
(returned value, tracking records written, rows persisted). -/
def collect_data (env : Nat → PollRound) : Bool → Nat → Nat →
    Option (Bool × List TrackingRecord × List Item)
  | _, _, 0 => none
  | needLogin, i, fuel + 1 =>
      if needLogin && !(env i).loginOk then some (false, [], [])
      else
        match (env i).fetch with
        | FetchOutcome.ok items => some (insert_data (env i).ins items)
        | FetchOutcome.badJson => some (false, [], [])
        | FetchOutcome.badFormat => some (false, [], [])
        | FetchOutcome.unauthorized => collect_data env true (i + 1) fuel
        | FetchOutcome.httpError _ => some (false, [], [])
        | FetchOutcome.netError => some (false, [], [])

/-- relogin_retries counts the re-login-and-retry cycles a collect_data
call performs: one for every 401 answered by re-entering collect_data. -/
def relogin_retries (env : Nat → PollRound) : Bool → Nat → Nat → Nat
  | _, _, 0 => 0
  | needLogin, i, fuel + 1 =>
      if needLogin && !(env i).loginOk then 0
      else
        match (env i).fetch with
        | FetchOutcome.unauthorized => 1 + relogin_retries env true (i + 1) fuel
        | _ => 0

/-- Engine names the two storage engines of DatabaseManager in
src/data_collector.py: the primary MySQL engine and the embedded SQLite
fallback. -/
inductive Engine where
  | mysql
  | sqlite
  deriving DecidableEq, Repr

/-- Probe records one connection attempt made by create_connection. -/
inductive Probe where
  | mysqlProbe
  | sqliteProbe
  deriving DecidableEq, Repr

/-- ConnEnv fixes the outcomes of the connection-related calls during one
ensure_connection or create_connection call: whether a MySQL connect
succeeds, whether the SQLite connect succeeds, what is_connected()
reports for a current MySQL connection, and whether the SELECT 1 health
probe succeeds on the current connection. -/
structure ConnEnv where
  mysqlUp : Bool
  sqliteUp : Bool
  mysqlConnected : Bool
  mysqlSelectOk : Bool
  sqliteSelectOk : Bool
  deriving DecidableEq, Repr

/-- create_connection embeds DatabaseManager.create_connection
(src/data_collector.py lines 63-92): up to 3 MySQL attempts; when the
first succeeds no further probe happens, and when all fail the function
falls back to SQLite. Returns the probes performed and the engine of the
resulting connection (none when even SQLite fails). -/
def create_connection (env : ConnEnv) : List Probe × Option Engine :=
  if env.mysqlUp then ([Probe.mysqlProbe], some Engine.mysql)
  else if env.sqliteUp then
    ([Probe.mysqlProbe, Probe.mysqlProbe, Probe.mysqlProbe, Probe.sqliteProbe],
     some Engine.sqlite)
  else
    ([Probe.mysqlProbe, Probe.mysqlProbe, Probe.mysqlProbe, Probe.sqliteProbe], none)

/-- ensure_connection embeds DatabaseManager.ensure_connection
(src/data_collector.py lines 236-261) for a current connection on the
given engine. A MySQL connection that reports disconnected, or whose
SELECT 1 probe raises, is replaced by calling create_connection; an
SQLite connection whose SELECT 1 raises is likewise replaced by calling
create_connection, which probes MySQL first. -/
def ensure_connection (env : ConnEnv) (cur : Option Engine) : List Probe × Option Engine :=
  match cur with
  | some Engine.mysql =>
      if !env.mysqlConnected then create_connection env
      else if env.mysqlSelectOk then ([], some Engine.mysql)
      else create_connection env
  | some Engine.sqlite =>
      if env.sqliteSelectOk then ([], some Engine.sqlite)
      else create_connection env
  | none => create_connection env

/-- SchedEvent is one observable action of the collection loop: one
stop_event.wait call with its timeout in seconds, the reset of the
consecutive-failure counter, or one invocation of collect_data. -/
inductive SchedEvent where
  | wait (g : Nat)
  | reset
  | collect
  deriving DecidableEq, Repr

/-- wait_trace embeds one of the granulated wait loops of
run_collection_loop: n calls of stop_event.wait(g) starting at absolute
time t, where stop = some s means the stop signal is set at time s. The
loop exits at the end of the granule during which it observes the signal.
Returns the wait events performed and whether the loop exited early. -/
def wait_trace (g : Nat) (stop : Option Nat) : Nat → Nat → List SchedEvent × Bool
  | 0, _ => ([], false)
  | n + 1, t =>
      match stop with
      | some s =>
          if s < t + g then ([SchedEvent.wait g], true)
          else
            let rest := wait_trace g (some s) n (t + g)
            (SchedEvent.wait g :: rest.1, rest.2)
      | none =>
          let rest := wait_trace g none n (t + g)
          (SchedEvent.wait g :: rest.1, rest.2)

/-- max_consecutive_failures mirrors self.max_consecutive_failures = 5 of
DataCollector.__init__ (src/data_collector.py line 440). -/
def max_consecutive_failures : Nat := 5

/-- IterEnv fixes the environment of one pass through the while body of
run_collection_loop: whether is_sleep_time_london() holds, the times (if
any) at which the stop signal is set relative to the start of each of the
three wait loops, and whether collect_data succeeds. -/
structure IterEnv where
  sleepLondon : Bool
  quietStop : Option Nat
  cooldownStop : Option Nat
  intervalStop : Option Nat
  collectOk : Bool

/-- IterOutcome is what one loop-body pass leads to: the loop returns
(stop observed), or continues with the given consecutive-failure count. -/
inductive IterOutcome where
  | stopped
  | next (failures : Nat)
  deriving DecidableEq, Repr

/-- IterResult packages one loop-body pass: the events performed in
order, the outcome, and the value of the consecutive-failure counter at
the moment collect_data is invoked (none when it is not invoked). -/
structure IterResult where
  trace : List SchedEvent
  outcome : IterOutcome
  failuresAtCollect : Option Nat
  deriving DecidableEq, Repr

/-- run_collection_iteration embeds one pass through the while body of
NCUDataCollectionService.run_collection_loop (src/data_collector.py lines
679-726), entered with the given consecutive-failure count. Quiet hours:
12 waits of 10 s, then continue without collecting. Cool-down, taken when
the counter has reached max_consecutive_failures: 20 waits of 30 s, then
the counter is reset to zero before collect_data runs. Afterwards
collect_data runs (success resets the counter, failure increments it)
followed by the interval wait of 12 granules of 10 s. Observing the stop
signal during any wait returns from the loop. -/
def run_collection_iteration (env : IterEnv) (failures : Nat) : IterResult :=
  if env.sleepLondon then
    let w := wait_trace 10 env.quietStop 12 0
    { trace := w.1,
      outcome := if w.2 then IterOutcome.stopped else IterOutcome.next failures,
      failuresAtCollect := none }
  else if max_consecutive_failures ≤ failures then
    let w := wait_trace 30 env.cooldownStop 20 0
    if w.2 then
      { trace := w.1, outcome := IterOutcome.stopped, failuresAtCollect := none }
    else
      let w2 := wait_trace 10 env.intervalStop 12 0
      { trace := (w.1 ++ [SchedEvent.reset]) ++ SchedEvent.collect :: w2.1,
        outcome := if w2.2 then IterOutcome.stopped
                   else IterOutcome.next (if env.collectOk then 0 else 1),
        failuresAtCollect := some 0 }
  else
    let w2 := wait_trace 10 env.intervalStop 12 0
    { trace := SchedEvent.collect :: w2.1,
      outcome := if w2.2 then IterOutcome.stopped
                 else IterOutcome.next (if env.collectOk then 0 else failures + 1),
      failuresAtCollect := some failures }

end Collector

/-
Concrete environments used by the counterexamples and witnesses below.
-/

/-- env_c4 makes the executemany call raise errno 1153 for every batch of
at least two records and succeed on single-record batches. -/
def env_c4 : CloudApi.BatchEnv Nat :=
  fun b _ => if 2 ≤ b.length then some CloudApi.DbError.packetTooLarge else none

/-- env_batch_ok makes every executemany call succeed. -/
def env_batch_ok : CloudApi.BatchEnv CloudApi.NcuRecord := fun _ _ => none

/-- ins_ok is an insert_data environment in which everything succeeds. -/
def ins_ok : Collector.InsertEnv :=
  { outerError := none, itemOk := fun _ => true, errTrackOk := true }

/-- ins_item_fail is an insert_data environment in which the outer body
succeeds but every per-item cursor.execute fails. -/
def ins_item_fail : Collector.InsertEnv :=
  { outerError := none, itemOk := fun _ => false, errTrackOk := true }

/-- ins_outer_fail is an insert_data environment in which the outer body
raises before any item is executed, and the error-path tracking write
succeeds. -/
def ins_outer_fail : Collector.InsertEnv :=
  { outerError := some (0, "MySQL Connection not available"),
    itemOk := fun _ => true, errTrackOk := true }

/-- poll_login_fail is a poll environment in which every login attempt
fails. -/
def poll_login_fail : Nat → Collector.PollRound :=
  fun _ => { loginOk := false, fetch := Collector.FetchOutcome.netError, ins := ins_ok }

/-- poll_ok is a poll environment in which login succeeds and the data
request returns a well-formed payload of one item. -/
def poll_ok : Nat → Collector.PollRound :=
  fun _ => { loginOk := true,
             fetch := Collector.FetchOutcome.ok [{ project := "P1" }],
             ins := ins_ok }

/-- poll_storage_fail is a poll environment in which the fetch succeeds
but the storage write raises (the error-path tracking write succeeds). -/
def poll_storage_fail : Nat → Collector.PollRound :=
  fun _ => { loginOk := true,
             fetch := Collector.FetchOutcome.ok [{ project := "P1" }],
             ins := ins_outer_fail }

/-- poll_all_401 is a poll environment in which login always succeeds but
the data request answers 401 on every round. -/
def poll_all_401 : Nat → Collector.PollRound :=
  fun _ => { loginOk := true, fetch := Collector.FetchOutcome.unauthorized, ins := ins_ok }

/-- poll_two_401 is a poll environment in which the data request answers
401 on the first two rounds and then a well-formed 200. -/
def poll_two_401 : Nat → Collector.PollRound :=
  fun i =>
    if i < 2 then
      { loginOk := true, fetch := Collector.FetchOutcome.unauthorized, ins := ins_ok }
    else
      { loginOk := true, fetch := Collector.FetchOutcome.ok [], ins := ins_ok }

/-- iter_cooldown is a loop environment outside quiet hours in which the
stop signal is never set. -/
def iter_cooldown : Collector.IterEnv :=
  { sleepLondon := false, quietStop := none, cooldownStop := none,
    intervalStop := none, collectOk := true }

/-- conn_env_c8 describes a moment at which MySQL is reachable again
while the current SQLite connection fails its health probe. -/
def conn_env_c8 : Collector.ConnEnv :=
  { mysqlUp := true, sqliteUp := true, mysqlConnected := true,
    mysqlSelectOk := true, sqliteSelectOk := false }

/-- conn_env_sqlite_ok describes a healthy SQLite connection. -/
def conn_env_sqlite_ok : Collector.ConnEnv :=
  { mysqlUp := true, sqliteUp := true, mysqlConnected := true,
    mysqlSelectOk := true, sqliteSelectOk := true }


/-
Helper lemmas.
-/

namespace CloudApi

/-- insert_batch_rows_subset: every row written by a batch call comes
from the batch it was given. -/
theorem insert_batch_rows_subset {α : Type} (env : BatchEnv α) (batch : List α) (attempt : Nat) :
    ∀ x ∈ insert_batch_rows env batch attempt, x ∈ batch := by
  induction batch, attempt using insert_batch_rows.induct env with
  | case1 batch attempt h =>
      intro x hx
      rw [insert_batch_rows, h] at hx
      exact hx
  | case2 batch attempt h h1 h2 ih1 ih2 =>
      intro x hx
      rw [insert_batch_rows, h, if_pos h1, if_pos h2] at hx
      rcases List.mem_append.mp hx with hx | hx
      · exact List.take_subset _ _ (ih1 x hx)
      · exact List.drop_subset _ _ (ih2 x hx)
  | case3 batch attempt h h1 h2 =>
      intro x hx
      rw [insert_batch_rows, h, if_pos h1, if_neg h2] at hx
      simp at hx
  | case4 batch attempt h h1 =>
      intro x hx
      rw [insert_batch_rows, h, if_neg h1] at hx
      simp at hx
  | case5 batch attempt h h1 ih =>
      intro x hx
      rw [insert_batch_rows, h] at hx
      simp at hx
      exact ih x hx.2
  | case6 batch attempt h h1 =>
      intro x hx
      rw [insert_batch_rows, h] at hx
      simp at hx
      exact absurd hx.1 h1
  | case7 batch attempt h h1 ih =>
      intro x hx
      rw [insert_batch_rows, h] at hx
      simp at hx
      exact ih x hx.2
  | case8 batch attempt h h1 =>
      intro x hx
      rw [insert_batch_rows, h] at hx
      simp at hx
      exact absurd hx.1 h1

/-- insert_batch_calls_bound: the number of executemany calls a batch
call makes is bounded by three calls per node of a binary bisection tree
over the batch, so the recursion always terminates after finitely many
attempts. -/
theorem insert_batch_calls_bound {α : Type} (env : BatchEnv α) (batch : List α) (attempt : Nat) :
    1 ≤ batch.length → attempt ≤ max_retries - 1 →
    insert_batch_calls env batch attempt + attempt ≤ 3 * (2 * batch.length - 1) := by
  induction batch, attempt using insert_batch_calls.induct env with
  | case1 batch attempt h =>
      intro hl ha
      rw [insert_batch_calls, h]
      dsimp only
      simp [max_retries] at ha
      omega
  | case2 batch attempt h h1 h2 ih1 ih2 =>
      intro hl ha
      rw [insert_batch_calls, h]
      dsimp only
      rw [if_pos h1, if_pos h2]
      have hm1 : 1 ≤ (batch.take (batch.length / 2)).length := by
        simp [List.length_take]; omega
      have hm2 : 1 ≤ (batch.drop (batch.length / 2)).length := by
        simp [List.length_drop]; omega
      have b1 := ih1 hm1 (by simp [max_retries])
      have b2 := ih2 hm2 (by simp [max_retries])
      simp [List.length_take, List.length_drop] at b1 b2
      simp [max_retries] at h1
      omega
  | case3 batch attempt h h1 h2 =>
      intro hl ha
      rw [insert_batch_calls, h]
      dsimp only
      rw [if_pos h1, if_neg h2]
      simp [max_retries] at ha
      omega
  | case4 batch attempt h h1 =>
      intro hl ha
      rw [insert_batch_calls, h]
      dsimp only
      rw [if_neg h1]
      simp [max_retries] at ha
      omega
  | case5 batch attempt h h1 ih =>
      intro hl ha
      rw [insert_batch_calls, h]
      dsimp only
      rw [if_pos h1]
      have b := ih hl (by simp [max_retries] at h1 ⊢; omega)
      omega
  | case6 batch attempt h h1 =>
      intro hl ha
      rw [insert_batch_calls, h]
      dsimp only
      rw [if_neg h1]
      simp [max_retries] at ha
      omega
  | case7 batch attempt h h1 ih =>
      intro hl ha
      rw [insert_batch_calls, h]
      dsimp only
      rw [if_pos h1]
      have b := ih hl (by simp [max_retries] at h1 ⊢; omega)
      omega
  | case8 batch attempt h h1 =>
      intro hl ha
      rw [insert_batch_calls, h]
      dsimp only
      rw [if_neg h1]
      simp [max_retries] at ha
      omega

/-- chunksAux_flatten: with enough fuel, concatenating the chunks gives
back the original list. -/
theorem chunksAux_flatten {α : Type} :
    ∀ (fuel : Nat) (l : List α), l.length ≤ fuel → (chunksAux fuel l).flatten = l := by
  intro fuel
  induction fuel with
  | zero =>
      intro l hl
      cases l with
      | nil => rfl
      | cons x xs => simp at hl
  | succ n ih =>
      intro l hl
      cases l with
      | nil => rfl
      | cons x xs =>
          simp only [chunksAux, List.flatten_cons]
          rw [ih ((x :: xs).drop batch_size)
            (by simp [List.length_drop, batch_size]; simp at hl; omega)]
          exact List.take_append_drop _ _

/-- chunks_flatten: batching loses and duplicates nothing. -/
theorem chunks_flatten {α : Type} (l : List α) : (chunks l).flatten = l :=
  chunksAux_flatten l.length l le_rfl

/-- chunksAux_mem: every element of a chunk is an element of the list
that was batched. -/
theorem chunksAux_mem {α : Type} :
    ∀ (fuel : Nat) (l : List α) (b : List α), b ∈ chunksAux fuel l → ∀ x ∈ b, x ∈ l := by
  intro fuel
  induction fuel with
  | zero => intro l b hb; simp [chunksAux] at hb
  | succ n ih =>
      intro l b hb x hx
      cases l with
      | nil => simp [chunksAux] at hb
      | cons y ys =>
          simp only [chunksAux, List.mem_cons] at hb
          rcases hb with hb | hb
          · exact List.take_subset _ _ (hb ▸ hx)
          · exact List.drop_subset _ _ (ih _ b hb x hx)

/-- chunks_mem: every element of a batch produced by chunks is an
element of the batched list. -/
theorem chunks_mem {α : Type} (l b : List α) (hb : b ∈ chunks l) : ∀ x ∈ b, x ∈ l :=
  chunksAux_mem l.length l b hb

/-- mem_existing_ids: an id of an input record that is stored in the
database is returned by a successful duplicate lookup. -/
theorem mem_existing_ids (db : List String) (data : List NcuRecord) (r : NcuRecord)
    (hr : r ∈ data) (hdb : r.rid ∈ db) : r.rid ∈ existing_ids db true data := by
  rw [existing_ids, check_ids_exist]
  cases data with
  | nil => simp at hr
  | cons y ys =>
      simp only [List.map_cons, List.isEmpty_cons, if_false, Bool.false_eq_true, if_true]
      refine List.mem_filter.mpr ⟨?_, by simpa using hdb⟩
      simpa using List.mem_map_of_mem (fun x => x.rid) hr

/-- mem_new_records: a record kept by the pruning filter belongs to the
input and its id was not returned by the duplicate lookup. -/
theorem mem_new_records (db : List String) (lookupOk : Bool) (data : List NcuRecord)
    (r : NcuRecord) (hr : r ∈ new_records db lookupOk data) :
    r ∈ data ∧ r.rid ∉ existing_ids db lookupOk data := by
  have h := List.mem_filter.mp hr
  exact ⟨h.1, of_decide_eq_true h.2⟩

/-- insert_ncu_data_rows_fresh: no row written by insert_ncu_data with a
working duplicate lookup has an id that was already stored. -/
theorem insert_ncu_data_rows_fresh (db : List String) (env : BatchEnv NcuRecord)
    (data : List NcuRecord) :
    ∀ r ∈ (insert_ncu_data db true env data).2, r.rid ∉ db := by
  intro r hr hdb
  rw [insert_ncu_data] at hr
  by_cases h0 : data.isEmpty
  · rw [if_pos h0] at hr
    simp at hr
  · rw [if_neg h0] at hr
    by_cases h1 : (new_records db true data).isEmpty
    · rw [if_pos h1] at hr
      simp at hr
    · rw [if_neg h1] at hr
      simp only [List.mem_flatMap] at hr
      obtain ⟨b, hb, hrb⟩ := hr
      have hrnew : r ∈ new_records db true data :=
        chunks_mem _ b hb r (insert_batch_rows_subset env b 0 r hrb)
      obtain ⟨hrdata, hrnotex⟩ := mem_new_records db true data r hrnew
      exact hrnotex (mem_existing_ids db data r hrdata hdb)

end CloudApi

namespace Collector

/-- length_filter_partition: a Boolean filter and its complement split a
list without loss. -/
theorem length_filter_partition {α : Type} (p : α → Bool) (l : List α) :
    (l.filter p).length + (l.filter (fun a => !(p a))).length = l.length := by
  induction l with
  | nil => rfl
  | cons x xs ih =>
      cases hx : p x <;> simp [List.filter_cons, hx] <;> omega

/-- non_aaa_as_not: the AAA filter written with a negated equality test. -/
theorem non_aaa_as_not (l : List Item) :
    non_aaa l = l.filter (fun it => !(decide (it.project = "AAA"))) := by
  rw [non_aaa]
  apply List.filter_congr
  intro it _
  simp [decide_not]

/-- excluded_eq_aaa_count: the excluded_records arithmetic of the
success path counts exactly the AAA items. -/
theorem excluded_eq_aaa_count (l : List Item) :
    l.length - (non_aaa l).length =
      (l.filter (fun it => decide (it.project = "AAA"))).length := by
  have h := length_filter_partition (fun it => decide (it.project = "AAA")) l
  rw [non_aaa_as_not]
  omega

/-- insert_data_writes_one: insert_data writes exactly one tracking
record whenever its body succeeds or the error-path tracking write
succeeds. -/
theorem insert_data_writes_one (ienv : InsertEnv) (l : List Item)
    (h : ienv.outerError = none ∨ ienv.errTrackOk = true) :
    ∃ t, (insert_data ienv l).2.1 = [t] := by
  cases ho : ienv.outerError with
  | none =>
      refine ⟨{ records_collected := l.length,
                records_inserted := ((non_aaa l).filter ienv.itemOk).length,
                excluded_records := l.length - (non_aaa l).length,
                success := true, error_message := none }, ?_⟩
      simp [insert_data, ho]
  | some ke =>
      rcases h with h | h
      · rw [ho] at h
        exact absurd h (by simp)
      · refine ⟨{ records_collected := l.length, records_inserted := 0,
                  excluded_records := 0, success := false,
                  error_message := some ke.2 }, ?_⟩
        simp [insert_data, ho, h]

/-- wait_trace_none: with no stop signal a wait loop runs all its
granules. -/
theorem wait_trace_none (g : Nat) : ∀ (n t : Nat),
    wait_trace g none n t = (List.replicate n (SchedEvent.wait g), false) := by
  intro n
  induction n with
  | zero => intro t; rfl
  | succ m ih => intro t; simp [wait_trace, ih (t + g), List.replicate_succ]

/-- wait_trace_mem: a wait loop emits only wait events of its own
granule size. -/
theorem wait_trace_mem (g : Nat) (stop : Option Nat) : ∀ (n t : Nat),
    ∀ e ∈ (wait_trace g stop n t).1, e = SchedEvent.wait g := by
  intro n
  induction n with
  | zero => intro t e he; simp [wait_trace] at he
  | succ m ih =>
      intro t e he
      cases stop with
      | none =>
          simp only [wait_trace, List.mem_cons] at he
          rcases he with he | he
          · exact he
          · exact ih (t + g) e he
      | some s =>
          by_cases hs : s < t + g
          · simp [wait_trace, hs] at he
            simp [he]
          · simp only [wait_trace, if_neg hs, List.mem_cons] at he
            rcases he with he | he
            · exact he
            · exact ih (t + g) e he

/-- wait_trace_stop: a wait loop whose stop signal is set during its
span exits early, within one granule of the signal. -/
theorem wait_trace_stop (g : Nat) (s : Nat) : ∀ (n t : Nat), t ≤ s → s < t + n * g →
    (wait_trace g (some s) n t).2 = true ∧
    t + g * (wait_trace g (some s) n t).1.length ≤ s + g := by
  intro n
  induction n with
  | zero =>
      intro t h1 h2
      rw [Nat.zero_mul] at h2
      omega
  | succ m ih =>
      intro t h1 h2
      by_cases hs : s < t + g
      · constructor
        · simp [wait_trace, hs]
        · simp [wait_trace, hs]
          omega
      · rw [Nat.succ_mul] at h2
        have h2x : s < (t + g) + m * g := by
          have hgle : t + g ≤ s := Nat.le_of_not_lt hs
          calc s < t + (m * g + g) := h2
            _ = (t + g) + m * g := by omega
        have := ih (t + g) (Nat.le_of_not_lt hs) h2x
        constructor
        · simp only [wait_trace, if_neg hs]
          exact this.1
        · simp only [wait_trace, if_neg hs, List.length_cons]
          rw [Nat.mul_succ]
          omega

end Collector

/-
Claim theorems.
-/

/-- C10: when the duplicate-id lookup of check_ids_exist raises, the
function swallows the exception and returns the empty set, so
insert_ncu_data classifies every input record as new and the batching
stage is attempted for all of them (the concatenation of the batches is
the whole input). -/
theorem c10_failed_lookup_all_new (db : List String) (data : List CloudApi.NcuRecord) :
    CloudApi.check_ids_exist db false (data.map (fun r => r.rid)) = [] ∧
    CloudApi.new_records db false data = data ∧
    (CloudApi.chunks (CloudApi.new_records db false data)).flatten = data := by
  have h1 : CloudApi.check_ids_exist db false (data.map (fun r => r.rid)) = [] := by
    rw [CloudApi.check_ids_exist]
    split
    · rfl
    · simp
  have h2 : CloudApi.new_records db false data = data := by
    rw [CloudApi.new_records]
    apply List.filter_eq_self.mpr
    intro r _
    rw [CloudApi.existing_ids, h1]
    simp
  exact ⟨h1, h2, by rw [h2]; exact CloudApi.chunks_flatten data⟩

/-- C3: with a working duplicate lookup, every record whose id
check_ids_exist returns is pruned before batching and appears in no
batch; no row insert_ncu_data writes has an id already stored; and a
second run over a database extended by the rows of a first run writes no
row whose id was in the original database or was written by the first
run. -/
theorem c3_dedup_before_batching (db : List String) (env : CloudApi.BatchEnv CloudApi.NcuRecord)
    (data : List CloudApi.NcuRecord) :
    (∀ r ∈ (CloudApi.insert_ncu_data db true env data).2, r.rid ∉ db) ∧
    (∀ r ∈ data, r.rid ∈ CloudApi.existing_ids db true data →
      ∀ b ∈ CloudApi.chunks (CloudApi.new_records db true data), r ∉ b) ∧
    (∀ (env2 : CloudApi.BatchEnv CloudApi.NcuRecord) (data2 : List CloudApi.NcuRecord),
      ∀ r ∈ (CloudApi.insert_ncu_data
              (db ++ (CloudApi.insert_ncu_data db true env data).2.map (fun x => x.rid))
              true env2 data2).2,
        r.rid ∉ db ∧ ∀ x ∈ (CloudApi.insert_ncu_data db true env data).2, r.rid ≠ x.rid) := by
  refine ⟨CloudApi.insert_ncu_data_rows_fresh db env data, ?_, ?_⟩
  · intro r hrdata hrex b hb hrb
    have hrnew : r ∈ CloudApi.new_records db true data :=
      CloudApi.chunks_mem _ b hb r hrb
    exact (CloudApi.mem_new_records db true data r hrnew).2 hrex
  · intro env2 data2 r hr
    have hfresh := CloudApi.insert_ncu_data_rows_fresh
      (db ++ (CloudApi.insert_ncu_data db true env data).2.map (fun x => x.rid))
      env2 data2 r hr
    rw [List.mem_append] at hfresh
    push_neg at hfresh
    refine ⟨hfresh.1, ?_⟩
    intro x hx hxr
    exact hfresh.2 (List.mem_map.mpr ⟨x, hx, hxr.symm⟩)

/-- C3 witness: with one stored id a, a run over records with ids a and
b prunes the record with id a out of the unique batch. -/
theorem c3_dedup_before_batching_witness :
    ({ rid := "a", payload := "x" } : CloudApi.NcuRecord) ∉
      [({ rid := "b", payload := "y" } : CloudApi.NcuRecord)] :=
  (c3_dedup_before_batching ["a"] env_batch_ok
      [{ rid := "a", payload := "x" }, { rid := "b", payload := "y" }]).2.1
    { rid := "a", payload := "x" } (by decide) (by decide)
    [{ rid := "b", payload := "y" }] (by decide)

/-- C4: a payload-too-large error on the first attempt of a multi-record
batch makes insert_ncu_data_batch retry the two halves of the batch
independently; the halves are strictly smaller and partition the batch,
so the bisection terminates; a single-record batch whose first attempt
raises payload-too-large is reported as failed after exactly one
executemany call, never retried; and the total number of executemany
calls of any such invocation is bounded by three per bisection-tree
node. -/
theorem c4_bisection_terminates {α : Type} (env : CloudApi.BatchEnv α) (batch : List α)
    (h1 : 1 < batch.length) (h2 : env batch 0 = some CloudApi.DbError.packetTooLarge) :
    CloudApi.insert_ncu_data_batch env batch =
      (CloudApi.insert_batch_go env (batch.take (batch.length / 2)) 0 &&
       CloudApi.insert_batch_go env (batch.drop (batch.length / 2)) 0) ∧
    (batch.take (batch.length / 2)).length < batch.length ∧
    (batch.drop (batch.length / 2)).length < batch.length ∧
    (batch.take (batch.length / 2)).length + (batch.drop (batch.length / 2)).length =
      batch.length ∧
    (∀ r : α, env [r] 0 = some CloudApi.DbError.packetTooLarge →
      CloudApi.insert_ncu_data_batch env [r] = false ∧
      CloudApi.insert_batch_calls env [r] 0 = 1) ∧
    CloudApi.insert_batch_calls env batch 0 ≤ 3 * (2 * batch.length - 1) := by
  refine ⟨?_, ?_, ?_, ?_, ?_, ?_⟩
  · rw [CloudApi.insert_ncu_data_batch, CloudApi.insert_batch_go, h2]
    dsimp only
    rw [if_pos (by simp [CloudApi.max_retries]), if_pos h1]
  · simp [List.length_take]
    omega
  · simp [List.length_drop]
    omega
  · simp [List.length_take, List.length_drop]
    omega
  · intro r hr
    constructor
    · rw [CloudApi.insert_ncu_data_batch, CloudApi.insert_batch_go, hr]
      dsimp only
      rw [if_pos (by simp [CloudApi.max_retries])]
      simp
    · rw [CloudApi.insert_batch_calls, hr]
      dsimp only
      rw [if_pos (by simp [CloudApi.max_retries])]
      simp
  · have hb := CloudApi.insert_batch_calls_bound env batch 0 (by omega)
      (by simp [CloudApi.max_retries])
    omega

/-- C4 witness: a two-record batch that is too large as a whole is
retried as its two single-record halves. -/
theorem c4_bisection_terminates_witness :
    CloudApi.insert_ncu_data_batch env_c4 [1, 2] =
      (CloudApi.insert_batch_go env_c4 [1] 0 && CloudApi.insert_batch_go env_c4 [2] 0) :=
  (c4_bisection_terminates env_c4 [1, 2] (by decide) (by decide)).1

/-- C2 counterexample: a call of insert_data whose only item fails its
individual insert writes the tracking record (collected 1, inserted 0,
excluded 0), for which excluded_records + records_inserted differs from
records_collected. -/
theorem c2_counterexample :
    (Collector.insert_data ins_item_fail [{ project := "P" }]).2.1 =
      [{ records_collected := 1, records_inserted := 0, excluded_records := 0,
         success := true, error_message := none }] ∧
    (0 : Nat) + 0 ≠ 1 := by
  refine ⟨by decide, by decide⟩

/-- C2 amended: on calls whose outer body succeeds, excluded_records +
records_inserted + the number of filtered items whose individual insert
failed equals records_collected, which is the input length; when every
individual insert succeeds this reduces to excluded_records +
records_inserted = records_collected. (The failure path instead reports
inserted 0 and excluded 0.) -/
theorem c2_tracking_identity (env : Collector.InsertEnv) (l : List Collector.Item)
    (h : env.outerError = none) :
    ∀ t ∈ (Collector.insert_data env l).2.1,
      t.records_collected = l.length ∧
      t.excluded_records + t.records_inserted +
        ((Collector.non_aaa l).filter (fun it => !(env.itemOk it))).length =
        t.records_collected ∧
      ((∀ it ∈ Collector.non_aaa l, env.itemOk it = true) →
        t.excluded_records + t.records_inserted = t.records_collected) := by
  intro t ht
  rw [Collector.insert_data, h] at ht
  dsimp only at ht
  simp only [List.mem_singleton] at ht
  subst ht
  have hpart := Collector.length_filter_partition env.itemOk (Collector.non_aaa l)
  have hle : (Collector.non_aaa l).length ≤ l.length := List.length_filter_le _ _
  refine ⟨rfl, by dsimp only; omega, ?_⟩
  intro hall
  have hfull : (Collector.non_aaa l).filter env.itemOk = Collector.non_aaa l :=
    List.filter_eq_self.mpr hall
  dsimp only
  rw [hfull]
  omega

/-- C2 witness: with one non-AAA item whose insert succeeds, the
identity specializes to 0 + 1 = 1 for the written tracking record. -/
theorem c2_tracking_identity_witness : (0 : Nat) + 1 = 1 :=
  (c2_tracking_identity ins_ok [{ project := "P" }] rfl
      { records_collected := 1, records_inserted := 1, excluded_records := 0,
        success := true, error_message := none } (by decide)).2.2 (by decide)

/-- C6 counterexample: a call of insert_data over one AAA record whose
outer body raises writes a tracking record reporting excluded_records 0,
although the input contains one AAA record, so the AAA count is not
reported on this path. -/
theorem c6_counterexample :
    (Collector.insert_data ins_outer_fail [{ project := "AAA" }]).2.1 =
      [{ records_collected := 1, records_inserted := 0, excluded_records := 0,
         success := false, error_message := some "MySQL Connection not available" }] ∧
    (([{ project := "AAA" }] : List Collector.Item).filter
        (fun it => decide (it.project = "AAA"))).length = 1 ∧
    (0 : Nat) ≠ 1 := by
  refine ⟨by decide, by decide, by decide⟩

/-- C6 amended: no row insert_data persists, on any path, has project
AAA; and on calls whose outer body succeeds the written tracking record
reports excluded_records equal to the number of AAA items of the input.
(The failure-path tracking record reports excluded_records 0 regardless
of the input.) -/
theorem c6_aaa_never_persisted (env : Collector.InsertEnv) (l : List Collector.Item) :
    (∀ it ∈ (Collector.insert_data env l).2.2, it.project ≠ "AAA") ∧
    (env.outerError = none →
      ∀ t ∈ (Collector.insert_data env l).2.1,
        t.excluded_records =
          (l.filter (fun it => decide (it.project = "AAA"))).length) := by
  constructor
  · intro it hit
    have hmem : it ∈ Collector.non_aaa l := by
      rw [Collector.insert_data] at hit
      cases ho : env.outerError with
      | none =>
          rw [ho] at hit
          dsimp only at hit
          exact (List.mem_filter.mp hit).1
      | some ke =>
          rw [ho] at hit
          dsimp only at hit
          by_cases he : env.errTrackOk
          · rw [if_pos he] at hit
            exact List.take_subset _ _ (List.mem_filter.mp hit).1
          · rw [if_neg he] at hit
            simp at hit
    exact of_decide_eq_true (List.mem_filter.mp hmem).2
  · intro h t ht
    rw [Collector.insert_data, h] at ht
    dsimp only at ht
    simp only [List.mem_singleton] at ht
    subst ht
    exact Collector.excluded_eq_aaa_count l

/-- C6 witness: for a payload with one AAA and one non-AAA item and a
fully successful call, the written tracking record reports
excluded_records equal to the AAA count, namely 1. -/
theorem c6_aaa_never_persisted_witness :
    ((([{ project := "AAA" }, { project := "P" }] : List Collector.Item).filter
        (fun it => decide (it.project = "AAA"))).length) = 1 := by
  have h := (c6_aaa_never_persisted ins_ok
      [{ project := "AAA" }, { project := "P" }]).2 rfl
      { records_collected := 2, records_inserted := 1, excluded_records := 1,
        success := true, error_message := none } (by decide)
  exact h.symm.trans (by decide)

/-- C1 counterexample: a poll cycle whose login fails returns false
without writing any tracking record, so the cycle produces zero tracking
records, not exactly one. -/
theorem c1_counterexample :
    Collector.collect_data poll_login_fail true 0 5 = some (false, [], []) ∧
    ([] : List Collector.TrackingRecord).length ≠ 1 := by
  refine ⟨rfl, by decide⟩

/-- C1 amended: a poll cycle writes at most one tracking record; a cycle
that reaches the storage stage writes exactly one provided the body or
the error-path tracking write succeeds (success records carry success
true and no error message, failure records carry the raised error text
as error_message); a cycle whose login fails writes none; and a
successful cycle writes exactly one record with success true. -/
theorem c1_tracking_per_cycle (env : Nat → Collector.PollRound) :
    ∀ (fuel : Nat) (needLogin : Bool) (i : Nat) (res : Bool)
      (tr : List Collector.TrackingRecord) (rows : List Collector.Item),
      Collector.collect_data env needLogin i fuel = some (res, tr, rows) →
      (tr = [] ∨ ∃ t, tr = [t]) ∧
      (∀ t ∈ tr, t.success = false → t.error_message.isSome = true) ∧
      (res = true → ∃ t, tr = [t] ∧ t.success = true) ∧
      (needLogin = true → (env i).loginOk = false → tr = []) ∧
      (∀ (ienv : Collector.InsertEnv) (l : List Collector.Item),
        ienv.outerError = none ∨ ienv.errTrackOk = true →
        ∃ t, (Collector.insert_data ienv l).2.1 = [t]) := by
  intro fuel
  induction fuel with
  | zero =>
      intro needLogin i res tr rows h
      simp [Collector.collect_data] at h
  | succ n ih =>
      intro needLogin i res tr rows h
      rw [Collector.collect_data] at h
      by_cases hl : (needLogin && !(env i).loginOk) = true
      · rw [if_pos hl] at h
        simp only [Option.some.injEq, Prod.mk.injEq] at h
        obtain ⟨h1, h2, h3⟩ := h
        subst h1
        subst h2
        refine ⟨Or.inl rfl, by simp, by simp, fun _ _ => rfl,
          Collector.insert_data_writes_one⟩
      · rw [if_neg hl] at h
        rcases hfetch : (env i).fetch with items | _ | _ | _ | code | _
        · rw [hfetch] at h
          dsimp only at h
          simp only [Option.some.injEq] at h
          cases ho : (env i).ins.outerError with
          | none =>
              rw [Collector.insert_data, ho] at h
              dsimp only at h
              simp only [Prod.mk.injEq] at h
              obtain ⟨h1, h2, h3⟩ := h
              subst h1
              subst h2
              refine ⟨Or.inr ⟨_, rfl⟩, ?_, fun _ => ⟨_, rfl, rfl⟩, ?_,
                Collector.insert_data_writes_one⟩
              · intro t ht hsf
                simp only [List.mem_singleton] at ht
                subst ht
                simp at hsf
              · intro hd1 hd2
                rw [hd1, hd2] at hl
                simp at hl
          | some ke =>
              rw [Collector.insert_data, ho] at h
              dsimp only at h
              by_cases he : (env i).ins.errTrackOk = true
              · rw [if_pos he] at h
                simp only [Prod.mk.injEq] at h
                obtain ⟨h1, h2, h3⟩ := h
                subst h1
                subst h2
                refine ⟨Or.inr ⟨_, rfl⟩, ?_, by simp, ?_,
                  Collector.insert_data_writes_one⟩
                · intro t ht _
                  simp only [List.mem_singleton] at ht
                  subst ht
                  rfl
                · intro hd1 hd2
                  rw [hd1, hd2] at hl
                  simp at hl
              · rw [if_neg he] at h
                simp only [Prod.mk.injEq] at h
                obtain ⟨h1, h2, h3⟩ := h
                subst h1
                subst h2
                refine ⟨Or.inl rfl, by simp, by simp, fun _ _ => rfl,
                  Collector.insert_data_writes_one⟩
        · rw [hfetch] at h
          dsimp only at h
          simp only [Option.some.injEq, Prod.mk.injEq] at h
          obtain ⟨h1, h2, h3⟩ := h
          subst h1
          subst h2
          refine ⟨Or.inl rfl, by simp, by simp, fun _ _ => rfl,
            Collector.insert_data_writes_one⟩
        · rw [hfetch] at h
          dsimp only at h
          simp only [Option.some.injEq, Prod.mk.injEq] at h
          obtain ⟨h1, h2, h3⟩ := h
          subst h1
          subst h2
          refine ⟨Or.inl rfl, by simp, by simp, fun _ _ => rfl,
            Collector.insert_data_writes_one⟩
        · rw [hfetch] at h
          dsimp only at h
          have key := ih true (i + 1) res tr rows h
          refine ⟨key.1, key.2.1, key.2.2.1, ?_, key.2.2.2.2⟩
          intro hd1 hd2
          rw [hd1, hd2] at hl
          simp at hl
        · rw [hfetch] at h
          dsimp only at h
          simp only [Option.some.injEq, Prod.mk.injEq] at h
          obtain ⟨h1, h2, h3⟩ := h
          subst h1
          subst h2
          refine ⟨Or.inl rfl, by simp, by simp, fun _ _ => rfl,
            Collector.insert_data_writes_one⟩
        · rw [hfetch] at h
          dsimp only at h
          simp only [Option.some.injEq, Prod.mk.injEq] at h
          obtain ⟨h1, h2, h3⟩ := h
          subst h1
          subst h2
          refine ⟨Or.inl rfl, by simp, by simp, fun _ _ => rfl,
            Collector.insert_data_writes_one⟩

/-- C1 witness: a cycle whose fetch succeeds but whose storage write
raises produces one tracking record with success false and the raised
error text present as error_message. -/
theorem c1_tracking_per_cycle_witness : (some "MySQL Connection not available").isSome = true :=
  (c1_tracking_per_cycle poll_storage_fail 1 false 0 false
      [{ records_collected := 1, records_inserted := 0, excluded_records := 0,
         success := false, error_message := some "MySQL Connection not available" }]
      [] rfl).2.1
    { records_collected := 1, records_inserted := 0, excluded_records := 0,
      success := false, error_message := some "MySQL Connection not available" }
    (by decide) rfl

/-- C5: entered with the consecutive-failure counter at the ceiling and
outside quiet hours, the loop body performs the full cool-down of 20
stop-signal polls of 30 seconds (600 seconds) and resets the counter to
zero before collect_data runs; and when the stop signal arrives during
the cool-down the loop returns without attempting any poll. -/
theorem c5_cooldown_circuit_breaker (env : Collector.IterEnv) (failures : Nat)
    (h1 : Collector.max_consecutive_failures ≤ failures)
    (h2 : env.sleepLondon = false) :
    (env.cooldownStop = none →
      (Collector.run_collection_iteration env failures).failuresAtCollect = some 0 ∧
      (Collector.run_collection_iteration env failures).trace =
        (List.replicate 20 (Collector.SchedEvent.wait 30) ++ [Collector.SchedEvent.reset]) ++
          Collector.SchedEvent.collect :: (Collector.wait_trace 10 env.intervalStop 12 0).1 ∧
      (List.replicate 20 (Collector.SchedEvent.wait 30)).length * 30 = 600) ∧
    (∀ s, env.cooldownStop = some s → s < 600 →
      (Collector.run_collection_iteration env failures).outcome =
        Collector.IterOutcome.stopped ∧
      Collector.SchedEvent.collect ∉ (Collector.run_collection_iteration env failures).trace ∧
      (Collector.run_collection_iteration env failures).failuresAtCollect = none) := by
  constructor
  · intro hc
    have hw : Collector.wait_trace 30 env.cooldownStop 20 0 =
        (List.replicate 20 (Collector.SchedEvent.wait 30), false) := by
      rw [hc]
      exact Collector.wait_trace_none 30 20 0
    have hrun : Collector.run_collection_iteration env failures =
        { trace := (List.replicate 20 (Collector.SchedEvent.wait 30) ++
              [Collector.SchedEvent.reset]) ++
            Collector.SchedEvent.collect :: (Collector.wait_trace 10 env.intervalStop 12 0).1,
          outcome := if (Collector.wait_trace 10 env.intervalStop 12 0).2 then
              Collector.IterOutcome.stopped
            else Collector.IterOutcome.next (if env.collectOk then 0 else 1),
          failuresAtCollect := some 0 } := by
      rw [Collector.run_collection_iteration, h2]
      simp only [Bool.false_eq_true, if_false]
      rw [if_pos h1, hw]
      rfl
    rw [hrun]
    exact ⟨rfl, rfl, by simp⟩
  · intro s hc hlt
    have hw := Collector.wait_trace_stop 30 s 20 0 (Nat.zero_le s) (by omega)
    have hrun : Collector.run_collection_iteration env failures =
        { trace := (Collector.wait_trace 30 (some s) 20 0).1,
          outcome := Collector.IterOutcome.stopped,
          failuresAtCollect := none } := by
      rw [Collector.run_collection_iteration, h2]
      simp only [Bool.false_eq_true, if_false]
      rw [if_pos h1, hc, hw.1]
      rfl
    rw [hrun]
    refine ⟨rfl, ?_, rfl⟩
    intro hmem
    have := Collector.wait_trace_mem 30 (some s) 20 0 _ hmem
    simp at this

/-- C5 witness: at the ceiling of 5 failures with no stop signal, the
counter handed to collect_data after the cool-down is 0. -/
theorem c5_cooldown_circuit_breaker_witness :
    (Collector.run_collection_iteration iter_cooldown 5).failuresAtCollect = some 0 :=
  ((c5_cooldown_circuit_breaker iter_cooldown 5 (by decide) rfl).1 rfl).1

/-- run_iteration_wait_mem: every wait event of a loop-body pass has
granule 10, or granule 30 and comes from the cool-down branch. -/
theorem run_iteration_wait_mem (env : Collector.IterEnv) (failures : Nat) (g : Nat)
    (hmem : Collector.SchedEvent.wait g ∈
      (Collector.run_collection_iteration env failures).trace) :
    g = 10 ∨ (g = 30 ∧ Collector.max_consecutive_failures ≤ failures ∧
      env.sleepLondon = false) := by
  rw [Collector.run_collection_iteration] at hmem
  by_cases hs : env.sleepLondon = true
  · rw [if_pos hs] at hmem
    dsimp only at hmem
    have := Collector.wait_trace_mem 10 env.quietStop 12 0 _ hmem
    left
    injection this
  · rw [if_neg hs] at hmem
    by_cases hf : Collector.max_consecutive_failures ≤ failures
    · rw [if_pos hf] at hmem
      by_cases hcd : (Collector.wait_trace 30 env.cooldownStop 20 0).2 = true
      · rw [if_pos hcd] at hmem
        dsimp only at hmem
        have := Collector.wait_trace_mem 30 env.cooldownStop 20 0 _ hmem
        right
        refine ⟨by injection this, hf, by simpa using hs⟩
      · rw [if_neg hcd] at hmem
        dsimp only at hmem
        rw [List.mem_append, List.mem_append] at hmem
        rcases hmem with (hmem | hmem) | hmem
        · have := Collector.wait_trace_mem 30 env.cooldownStop 20 0 _ hmem
          right
          refine ⟨by injection this, hf, by simpa using hs⟩
        · simp at hmem
        · rcases List.mem_cons.mp hmem with hmem | hmem
          · exact absurd hmem (by simp)
          · have := Collector.wait_trace_mem 10 env.intervalStop 12 0 _ hmem
            left
            injection this
    · rw [if_neg hf] at hmem
      dsimp only at hmem
      rcases List.mem_cons.mp hmem with hmem | hmem
      · exact absurd hmem (by simp)
      · have := Collector.wait_trace_mem 10 env.intervalStop 12 0 _ hmem
        left
        injection this

/-- C9 counterexample: outside quiet hours with the failure counter at
the ceiling, the loop performs a stop-signal poll of 30 seconds, which
exceeds the claimed 10-second granularity. -/
theorem c9_counterexample :
    Collector.SchedEvent.wait 30 ∈
      (Collector.run_collection_iteration iter_cooldown 5).trace ∧
    ¬(30 ≤ 10) := ⟨by decide, by decide⟩

/-- C9 amended: every stop-signal poll of the loop body has granule 10
seconds except the cool-down polls, which have granule 30 seconds (a
30-second wait occurs only in the cool-down branch); and every wait loop
whose stop signal is set during its span exits within one granule of the
signal rather than after the full configured wait. -/
theorem c9_wait_granularity (env : Collector.IterEnv) (failures : Nat) :
    (∀ g, Collector.SchedEvent.wait g ∈
        (Collector.run_collection_iteration env failures).trace →
      g = 10 ∨ g = 30) ∧
    (∀ (s n t g : Nat), t ≤ s → s < t + n * g →
      (Collector.wait_trace g (some s) n t).2 = true ∧
      t + g * (Collector.wait_trace g (some s) n t).1.length ≤ s + g) ∧
    (Collector.SchedEvent.wait 30 ∈
        (Collector.run_collection_iteration env failures).trace →
      Collector.max_consecutive_failures ≤ failures ∧ env.sleepLondon = false) := by
  refine ⟨?_, fun s n t g ht hlt => Collector.wait_trace_stop g s n t ht hlt, ?_⟩
  · intro g hg
    rcases run_iteration_wait_mem env failures g hg with h | h
    · exact Or.inl h
    · exact Or.inr h.1
  · intro hg
    rcases run_iteration_wait_mem env failures 30 hg with h | h
    · exact absurd h (by decide)
    · exact h.2

/-- C9 witness: a cool-down wait whose stop signal is set at time 0
exits early, within one 30-second granule. -/
theorem c9_wait_granularity_witness :
    (Collector.wait_trace 30 (some 0) 20 0).2 = true ∧
    0 + 30 * (Collector.wait_trace 30 (some 0) 20 0).1.length ≤ 0 + 30 :=
  (c9_wait_granularity iter_cooldown 0).2.1 0 20 0 30 (Nat.le_refl 0) (by decide)

/-- C8 counterexample: with the process on the SQLite fallback, a failed
SQLite health probe while MySQL is reachable makes ensure_connection
re-probe MySQL and switch the process back to the primary engine, so the
fallback choice is not sticky. -/
theorem c8_counterexample :
    Collector.ensure_connection conn_env_c8 (some Collector.Engine.sqlite) =
      ([Collector.Probe.mysqlProbe], some Collector.Engine.mysql) ∧
    Collector.Probe.mysqlProbe ∈
      (Collector.ensure_connection conn_env_c8 (some Collector.Engine.sqlite)).1 ∧
    (Collector.ensure_connection conn_env_c8 (some Collector.Engine.sqlite)).2 ≠
      some Collector.Engine.sqlite := ⟨by decide, by decide, by decide⟩

/-- C8 amended: the fallback engine is kept only while its health probe
succeeds (no primary probe happens then); as soon as the SQLite health
probe fails, ensure_connection calls create_connection, whose first
probe is always against the primary MySQL engine, so the primary is
re-probed after a connection loss. -/
theorem c8_fallback_not_sticky (env : Collector.ConnEnv) :
    (env.sqliteSelectOk = true →
      Collector.ensure_connection env (some Collector.Engine.sqlite) =
        ([], some Collector.Engine.sqlite)) ∧
    (env.sqliteSelectOk = false →
      (Collector.ensure_connection env (some Collector.Engine.sqlite)).1.head? =
        some Collector.Probe.mysqlProbe) := by
  constructor
  · intro h
    rw [Collector.ensure_connection, h]
    simp
  · intro h
    rw [Collector.ensure_connection, h]
    simp only [Bool.false_eq_true, if_false]
    rw [Collector.create_connection]
    by_cases hm : env.mysqlUp = true
    · rw [if_pos hm]
      rfl
    · rw [if_neg hm]
      by_cases hq : env.sqliteUp = true
      · rw [if_pos hq]
        rfl
      · rw [if_neg hq]
        rfl

/-- C8 witness: while the SQLite health probe succeeds, ensure_connection
performs no probe and keeps the fallback engine. -/
theorem c8_fallback_not_sticky_witness :
    Collector.ensure_connection conn_env_sqlite_ok (some Collector.Engine.sqlite) =
      ([], some Collector.Engine.sqlite) :=
  (c8_fallback_not_sticky conn_env_sqlite_ok).1 rfl

/-- C7: the code retries on every 401 with no depth bound, contradicting
the one-retry claim and the source comment of line 616: in an environment
in which every data request answers 401 after a successful login,
collect_data never completes for any recursion budget (the recursion is
unbounded), and the number of re-login-and-retry cycles equals the
budget; with two consecutive 401 responses the collector performs two
re-login-and-retry cycles, exceeding the claimed bound of one. -/
theorem c7_unbounded_relogin_on_401 :
    (∀ (fuel : Nat) (b : Bool) (i : Nat),
      Collector.collect_data poll_all_401 b i fuel = none) ∧
    Collector.relogin_retries poll_two_401 false 0 10 = 2 ∧
    ¬(2 ≤ 1) ∧
    Collector.relogin_retries poll_all_401 false 0 50 = 50 := by
  refine ⟨?_, by decide, by decide, by decide⟩
  intro fuel
  induction fuel with
  | zero => intro b i; rfl
  | succ n ih =>
      intro b i
      rw [Collector.collect_data]
      have hl : (b && !(poll_all_401 i).loginOk) = false := by
        simp [poll_all_401]
      rw [hl]
      simp only [Bool.false_eq_true, if_false]
      exact ih true (i + 1)
